import Mathlib

/-!
Verification of the ProMax MCP server core logic
(`procagent/mcp/promax_server.py`).

The embedding models Python floats as exact rationals (`ℚ`), COM handles as
natural numbers, Python dicts as insertion-ordered association lists, and
every fallible vendor (COM) call as an explicit `Except` outcome supplied by
an oracle argument.  Each MCP tool becomes a pure function from the session
state, its arguments and its vendor oracle to the pair of the new session
state and the returned result.  Each distinct `return` site of the Python
code is one constructor of `ToolRes`; a result is an error exactly when the
Python string started with the text "Error:".
-/

/- ============================================================ -/
/- Unit conversion (promax_server.py lines 32-73)               -/
/- ============================================================ -/

/-- The `UNIT_CONVERSIONS` dict: quantity kind ↦ (unit ↦ conversion to SI).
Mirrors the nested dict literal at lines 32-52 of the source. -/
def UNIT_CONVERSIONS : List (String × List (String × (ℚ → ℚ))) :=
  [ ("temperature",
      [ ("K", fun x => x),
        ("C", fun x => x + 273.15),
        ("F", fun x => (x - 32) * 5 / 9 + 273.15),
        ("R", fun x => x * 5 / 9) ]),
    ("pressure",
      [ ("Pa", fun x => x),
        ("kPa", fun x => x * 1000),
        ("bar", fun x => x * 100000),
        ("atm", fun x => x * 101325),
        ("psi", fun x => x * 6894.76) ]),
    ("flow",
      [ ("mol/s", fun x => x),
        ("kmol/hr", fun x => x * 1000 / 3600),
        ("kg/s", fun x => x),
        ("kg/hr", fun x => x / 3600) ]) ]

/-- The two `ValueError`s `convert_units` can raise:
`Unknown unit type: {unit_type}` and `Unknown {unit_type} unit: {unit}`. -/
inductive ConvErr where
  | unknownQuantityKind (kind : String)
  | unknownUnit (kind : String) (unit : String)
deriving DecidableEq, Repr

/-- `convert_units(value, unit, unit_type)` (lines 67-73): membership test of
`unit_type` in `UNIT_CONVERSIONS`, then of `unit` in the inner dict, then
application of the selected lambda. -/
def convert_units (value : ℚ) (unit : String) (unit_type : String) :
    Except ConvErr ℚ :=
  match UNIT_CONVERSIONS.lookup unit_type with
  | none => .error (.unknownQuantityKind unit_type)
  | some units =>
    match units.lookup unit with
    | none => .error (.unknownUnit unit_type unit)
    | some f => .ok (f value)

/- ============================================================ -/
/- Composition parsing and resolution                           -/
/- (set_stream_composition_tool, lines 342-423)                  -/
/- ============================================================ -/

/-- Opening and closing curly brace characters (written via code points to
keep them out of string literals). -/
def lbrace : Char := Char.ofNat 123

def rbrace : Char := Char.ofNat 125

/-- ASCII whitespace, as stripped by Python `str.strip()`. -/
def isSpaceChar (c : Char) : Bool :=
  c == ' ' || c == '\t' || c == '\n' || c == '\r'

/-- Modelled from the spec: Python `str.strip()` (stdlib), on char lists. -/
def stripChars (cs : List Char) : List Char :=
  ((cs.dropWhile isSpaceChar).reverse.dropWhile isSpaceChar).reverse

/-- Modelled from the spec: Python `str.strip()` on strings. -/
def pyStrip (s : String) : String := String.mk (stripChars s.data)

/-- ASCII lowercasing of one character. -/
def lowerChar (c : Char) : Char :=
  if 65 ≤ c.toNat && c.toNat ≤ 90 then Char.ofNat (c.toNat + 32) else c

/-- Modelled from the spec: Python `str.lower()` (stdlib) on the ASCII
component names this server handles. -/
def pyLower (s : String) : String := String.mk (s.data.map lowerChar)

/-- Modelled from the spec: Python `str.split(sep)` (stdlib) for the
one-character separators used by the server; `"".split(sep)` is `[""]`. -/
def splitOnChar (sep : Char) : List Char → List (List Char)
  | [] => [[]]
  | c :: rest =>
    match splitOnChar sep rest with
    | [] => [[]]
    | g :: gs => if c == sep then [] :: g :: gs else (c :: g) :: gs

/-- `str.split` on strings. -/
def pySplit (s : String) (sep : Char) : List String :=
  (splitOnChar sep s.data).map String.mk

/-- Python-dict insertion: overwrite the value in place if the key exists,
else append. -/
def dictInsert {α : Type} (l : List (String × α)) (k : String) (v : α) :
    List (String × α) :=
  if l.any (fun p => p.1 == k) then
    l.map (fun p => if p.1 == k then (k, v) else p)
  else l ++ [(k, v)]

/-- Python `dict(pairs)`: later pairs overwrite earlier ones with equal key. -/
def dictOfPairs {α : Type} (l : List (String × α)) : List (String × α) :=
  l.foldl (fun acc kv => dictInsert acc kv.1 kv.2) []

/-- Digits of a decimal literal to a natural number; `none` when empty or a
non-digit appears. -/
def parseDigits (cs : List Char) : Option Nat :=
  if cs.isEmpty then none
  else cs.foldl
    (fun acc c => acc.bind
      (fun n => if c.isDigit then some (10 * n + (c.toNat - 48)) else none))
    (some 0)

/-- Modelled from the spec: Python `float(v)` on the plain decimal literals
used for fractions (optional sign, integer digits, optional fractional
digits; surrounding whitespace tolerated).  The stdlib conversion itself is
not part of this repository. -/
def parseFloat? (s : String) : Option ℚ :=
  let t := stripChars s.data
  let signAndBody : ℚ × List Char :=
    match t with
    | c :: cs =>
      if c == '-' then (-1, cs)
      else if c == '+' then (1, cs) else (1, t)
    | [] => (1, [])
  let sign := signAndBody.1
  match splitOnChar '.' signAndBody.2 with
  | [ip] =>
    (parseDigits ip).map (fun n => sign * n)
  | [ip, fp] =>
    if ip.isEmpty && fp.isEmpty then none
    else
      let ipart : Option Nat := if ip.isEmpty then some 0 else parseDigits ip
      let fpart : Option Nat := if fp.isEmpty then some 0 else parseDigits fp
      match ipart, fpart with
      | some n, some f =>
        some (sign * ((n : ℚ) + (f : ℚ) / ((10 : ℚ) ^ fp.length)))
      | _, _ => none
  | _ => none

/-- The key=value branch of the string normalization (lines 364-369):
`dict(item.split('=') for item in composition.split(','))` followed by
`{k.strip(): float(v) for k, v in composition.items()}`.  `none` models the
`ValueError`/`TypeError` that the surrounding `except` would catch. -/
def keyValueParse (s : String) : Option (List (String × ℚ)) := do
  let rawPairs ← (splitOnChar ',' s.data).mapM
    (fun item =>
      match splitOnChar '=' item with
      | [k, v] => some (String.mk k, String.mk v)
      | _ => none)
  let typed ← (dictOfPairs rawPairs).mapM
    (fun kv => (parseFloat? kv.2).map (fun q => (pyStrip kv.1, q)))
  pure (dictOfPairs typed)

def skipWs (cs : List Char) : List Char :=
  cs.dropWhile (fun c => c == ' ' || c == '\t' || c == '\n' || c == '\r')

def parseJsonString (cs : List Char) : Option (String × List Char) :=
  match cs with
  | c :: rest =>
    if c == '"' then
      let content := rest.takeWhile (fun d => !(d == '"'))
      match rest.drop content.length with
      | d :: rest2 => if d == '"' then some (String.mk content, rest2) else none
      | [] => none
    else none
  | [] => none

def parseJsonNumber (cs : List Char) : Option (ℚ × List Char) :=
  let numChars := cs.takeWhile
    (fun c => c.isDigit || c == '.' || c == '-' || c == '+')
  match parseFloat? (String.mk numChars) with
  | some q => some (q, cs.drop numChars.length)
  | none => none

/-- Pair list of a flat JSON object after the opening brace. -/
def parseJsonPairs : Nat → List Char → List (String × ℚ) →
    Option (List (String × ℚ))
  | 0, _, _ => none
  | fuel + 1, cs, acc =>
    match parseJsonString (skipWs cs) with
    | none => none
    | some (k, cs1) =>
      match skipWs cs1 with
      | c :: cs2 =>
        if c == ':' then
          match parseJsonNumber (skipWs cs2) with
          | none => none
          | some (v, cs3) =>
            match skipWs cs3 with
            | d :: cs4 =>
              if d == ',' then parseJsonPairs fuel cs4 (dictInsert acc k v)
              else if d == rbrace then
                if (skipWs cs4).isEmpty then some (dictInsert acc k v) else none
              else none
            | [] => none
        else none
      | [] => none

/-- Modelled from the spec: Python `json.loads` restricted to the flat
object-of-numbers payloads this tool receives (no escape sequences, no
nesting).  The stdlib parser itself is not part of this repository. -/
def jsonParse (s : String) : Option (List (String × ℚ)) :=
  match skipWs s.toList with
  | c :: rest =>
    if c == lbrace then
      match skipWs rest with
      | d :: rest2 =>
        if d == rbrace then
          if (skipWs rest2).isEmpty then some [] else none
        else parseJsonPairs (s.data.length + 1) (skipWs rest) []
      | [] => none
    else none
  | [] => none

/-- The tool's `composition` argument: a mapping, or one of the string forms
Claude might send. -/
inductive CompositionInput where
  | dict (m : List (String × ℚ))
  | str (s : String)

/-- Lines 358-369: a string starting (after strip) with an opening brace is
parsed as JSON, any other string as comma-separated key=value pairs; a
mapping is used as-is.  `none` models a parse exception. -/
def normalizeComposition : CompositionInput → Option (List (String × ℚ))
  | .dict m => some m
  | .str s =>
    if ((stripChars s.data).headD ' ') == lbrace then jsonParse s
    else keyValueParse s

/-- Inner loop of lines 400-405: index of the first registered name equal to
`key` up to lowercasing. -/
def firstMatchIdx (key : String) : List String → Option Nat
  | [] => none
  | n :: rest =>
    if pyLower key == pyLower n then some 0
    else (firstMatchIdx key rest).map (fun i => i + 1)

/-- Output of the matching loop: the dense vector plus the matched and
unmatched input names, in iteration order. -/
structure ResolveResult where
  vector : List ℚ
  matched : List String
  unmatched : List String
deriving DecidableEq, Repr

/-- One iteration of the loop at lines 398-407. -/
def resolveStep (names : List String) (acc : ResolveResult)
    (kv : String × ℚ) : ResolveResult :=
  match firstMatchIdx kv.1 names with
  | some i =>
    { acc with vector := acc.vector.set i kv.2, matched := acc.matched ++ [kv.1] }
  | none => { acc with unmatched := acc.unmatched ++ [kv.1] }

/-- Lines 394-407: start from `[0.0] * n_comps`, then for each (name, value)
of the composition assign the value at the first case-insensitive match and
record the name as matched, or record it as unmatched. -/
def resolveComposition (comp : List (String × ℚ)) (names : List String) :
    ResolveResult :=
  comp.foldl (resolveStep names)
    { vector := List.replicate names.length 0, matched := [], unmatched := [] }

/- ============================================================ -/
/- Session state (ProMaxState, lines 80-133)                    -/
/- ============================================================ -/

/-- The mutable singleton `ProMaxState` (lines 80-124).  COM handles are
opaque naturals; the three shape/stencil dicts are insertion-ordered
association lists. -/
structure ProMaxState where
  pmx : Option Nat
  project : Option Nat
  flowsheet : Option Nat
  visio : Option Nat
  vpage : Option Nat
  stencils : List (String × Nat)
  stream_shapes : List (String × Nat)
  block_shapes : List (String × Nat)
  with_gui : Bool
deriving DecidableEq, Repr

/-- The state built by `__init__` on first construction: every handle absent,
every registry empty, GUI off. -/
def initialState : ProMaxState :=
  { pmx := none, project := none, flowsheet := none, visio := none,
    vpage := none, stencils := [], stream_shapes := [], block_shapes := [],
    with_gui := false }

/-- `ProMaxState.reset` (lines 104-114): clear every field. -/
def ProMaxState.reset (s : ProMaxState) : ProMaxState :=
  { s with
    pmx := none, project := none, flowsheet := none, visio := none,
    vpage := none, stencils := [], stream_shapes := [], block_shapes := [],
    with_gui := false }

/-- `is_connected` property (lines 116-119). -/
def ProMaxState.is_connected (s : ProMaxState) : Bool := s.pmx.isSome

/-- `has_flowsheet` property (lines 121-124). -/
def ProMaxState.has_flowsheet (s : ProMaxState) : Bool := s.flowsheet.isSome

/-- One constructor per distinct `return _result(...)` site of the tool
functions.  The comment on each constructor is the Python text; `isError`
below reproduces the "Error:" prefix convention. -/
inductive ToolRes where
  /-- "Connected to ProMax {version} ({mode} mode)" -/
  | connected (version : String) (gui : Bool)
  /-- "Error: Failed to connect to ProMax: {e}" -/
  | connectFailed (e : String)
  /-- "Error: Not connected to ProMax. Call connect_promax first." -/
  | notConnected
  /-- "Created project with flowsheet '{flowsheet_name}'" -/
  | createdProject (flowsheetName : String)
  /-- "Error: Failed to create project: {e}" -/
  | createProjectFailed (e : String)
  /-- "Opened project: {filepath} (flowsheets: {n})" -/
  | openedProject (filepath : String) (nFlowsheets : Nat)
  /-- "Error: Failed to open project: {e}" -/
  | openProjectFailed (e : String)
  /-- "Error: No flowsheet. Create a project first." -/
  | noFlowsheet
  /-- "Added {n} components: ..." (with optional "Failed: ..." tail) -/
  | addedComponents (added : List String) (failed : List String)
  /-- "Error: Failed to add components: {e}" -/
  | addComponentsFailed (e : String)
  /-- "Error: Stencil '{stencil_name}' not loaded." -/
  | stencilNotLoaded (stencil : String)
  /-- "Created stream '{name}' with Visio shape at ({x}, {y}) mm" -/
  | createdStream (name : String)
  /-- "Created stream '{name}' (data only)" -/
  | createdStreamDataOnly (name : String)
  /-- "Error: Failed to create stream: {e}" -/
  | createStreamFailed (e : String)
  /-- "Error: Unknown block type '{block_type}'. Available: ..." -/
  | unknownBlockType (blockType : String)
  /-- "Created {block_type} block '{block_name}' at ({x}, {y}) mm" -/
  | createdBlock (blockType : String) (blockName : String)
  /-- "Created {block_type} block '{name}' (data only)" -/
  | createdBlockDataOnly (blockType : String)
  /-- "Error: Failed to create block: {e}" -/
  | createBlockFailed (e : String)
  /-- "Error: Stream connections require GUI mode (with_gui=true)" -/
  | guiRequired
  /-- "Error: Stream '{stream_name}' not found. Create it first." -/
  | streamShapeNotFound (name : String)
  /-- "Error: Block '{block_name}' not found. Create it first." -/
  | blockShapeNotFound (name : String)
  /-- "Connected '{stream}' to '{block}' (point {p}, {direction})" -/
  | connectedStream (stream : String) (block : String) (point : Nat)
      (isInlet : Bool)
  /-- "Error: Failed to connect stream: {e}" -/
  | connectStreamFailed (e : String)
  /-- "Set {name} properties: ..." (echoes the raw argument values) -/
  | setProperties (name : String) (tC pKpa fKmolHr : Option ℚ)
  /-- "Error: Failed to set stream properties: {e}" -/
  | setPropertiesFailed (e : String)
  /-- "Error: Composition must sum to 1.0, got {total:.4f}" -/
  | compositionSumError (total : ℚ)
  /-- "Error: No components in environment. Add components first." -/
  | noComponentsInEnv
  /-- "Set {name} composition ({len(matched)} components)" plus a
  "Warning: Unmatched components: ..." tail when `unmatched` is nonempty -/
  | setComposition (name : String) (matched : List String)
      (unmatched : List String)
  /-- "Error: Failed to set composition: {e}" -/
  | setCompositionFailed (e : String)
  /-- "Flash calculation completed for '{name}'" -/
  | flashed (name : String)
  /-- "Error: Flash calculation failed: {e}" -/
  | flashFailed (e : String)
  /-- stream results JSON payload (values after the falsy-guarded unit
  conversions of lines 471-476) -/
  | streamResults (name : String) (tC pKpa fKmolHr : Option ℚ)
  /-- "Error: Failed to get stream results: {e}" -/
  | getResultsFailed (e : String)
  /-- "Simulation converged successfully" -/
  | simulationConverged
  /-- "Simulation did not converge. Status code: {status_code}" -/
  | simulationNotConverged (status : Int)
  /-- "Error: Simulation failed: {e}" -/
  | simulationFailed (e : String)
  /-- "Error: No project to save." -/
  | noProjectToSave
  /-- "Project saved to: {filepath}" -/
  | savedProject (filepath : String)
  /-- "Error: Failed to save project: {e}" -/
  | saveProjectFailed (e : String)
  /-- "No project to close." (plain text, no "Error:" prefix) -/
  | noProjectToClose
  /-- "Project closed successfully" -/
  | projectClosed
  /-- "Error: Failed to close project: {e}" -/
  | closeProjectFailed (e : String)
  /-- "Streams (n): ..." or "No streams in flowsheet" -/
  | listedStreams (names : List String)
  /-- "Error: Failed to list streams: {e}" -/
  | listStreamsFailed (e : String)
  /-- "Blocks (n): ..." or "No blocks in flowsheet" -/
  | listedBlocks (names : List String)
  /-- "Error: Failed to list blocks: {e}" -/
  | listBlocksFailed (e : String)
deriving DecidableEq, Repr

/-- Whether the corresponding Python return string starts with "Error:". -/
def ToolRes.isError : ToolRes → Bool
  | .connectFailed _ => true
  | .notConnected => true
  | .createProjectFailed _ => true
  | .openProjectFailed _ => true
  | .noFlowsheet => true
  | .addComponentsFailed _ => true
  | .stencilNotLoaded _ => true
  | .createStreamFailed _ => true
  | .unknownBlockType _ => true
  | .createBlockFailed _ => true
  | .guiRequired => true
  | .streamShapeNotFound _ => true
  | .blockShapeNotFound _ => true
  | .connectStreamFailed _ => true
  | .setPropertiesFailed _ => true
  | .compositionSumError _ => true
  | .noComponentsInEnv => true
  | .setCompositionFailed _ => true
  | .flashFailed _ => true
  | .getResultsFailed _ => true
  | .simulationFailed _ => true
  | .noProjectToSave => true
  | .saveProjectFailed _ => true
  | .closeProjectFailed _ => true
  | .listStreamsFailed _ => true
  | .listBlocksFailed _ => true
  | _ => false

/- ============================================================ -/
/- Tool wrappers                                                -/
/- ============================================================ -/

/-- Vendor outcomes consumed by `connect_promax_tool`: the
`gencache.EnsureDispatch` call (an import failure behaves like a dispatch
failure: error result, no mutation) and the subsequent `Version` read. -/
structure ConnectOracle where
  dispatch : Except String Nat
  version : Except String String

/-- `connect_promax_tool` (lines 145-172).  Note the source assigns
`state.pmx` and `state.with_gui` before reading `Version`, so a failing
version read leaves the assignments in place. -/
def connect_promax_tool (s : ProMaxState) (with_gui : Bool)
    (o : ConnectOracle) : ProMaxState × ToolRes :=
  match o.dispatch with
  | .error e => (s, .connectFailed e)
  | .ok h =>
    let s1 := { s with pmx := some h, with_gui := with_gui }
    match o.version with
    | .error e => (s1, .connectFailed e)
    | .ok v => (s1, .connected v with_gui)

/-- Vendor outcomes for `create_project_tool`: `pmx.New()`,
`project.Flowsheets.Add(name)`, and in GUI mode `pmx.VisioApp`,
`flowsheet.VisioPage` and the stencil-loading loop (whose net effect is the
list of stencil documents inserted). -/
structure CreateProjectOracle where
  newProject : Except String Nat
  addFlowsheet : Except String Nat
  visio : Except String Nat
  vpage : Except String Nat
  docs : Except String (List (String × Nat))

/-- `create_project_tool` (lines 175-206).  Each vendor failure after a state
assignment leaves the earlier assignments in place, exactly as the Python
`try` body does. -/
def create_project_tool (s : ProMaxState) (flowsheet_name : String)
    (o : CreateProjectOracle) : ProMaxState × ToolRes :=
  if !s.is_connected then (s, .notConnected)
  else
    match o.newProject with
    | .error e => (s, .createProjectFailed e)
    | .ok p =>
      let s1 := { s with project := some p }
      match o.addFlowsheet with
      | .error e => (s1, .createProjectFailed e)
      | .ok f =>
        let s2 := { s1 with flowsheet := some f }
        if s2.with_gui then
          match o.visio with
          | .error e => (s2, .createProjectFailed e)
          | .ok vh =>
            let s3 := { s2 with visio := some vh }
            match o.vpage with
            | .error e => (s3, .createProjectFailed e)
            | .ok pg =>
              let s4 := { s3 with vpage := some pg }
              match o.docs with
              | .error e => (s4, .createProjectFailed e)
              | .ok ds =>
                ({ s4 with
                   stencils := ds.foldl
                     (fun acc d => dictInsert acc d.1 d.2) s4.stencils },
                 .createdProject flowsheet_name)
        else (s2, .createdProject flowsheet_name)

/-- Vendor outcomes for `open_project_tool`: `pmx.Open(path)`, the flowsheet
count, `Flowsheets(0)`, and the GUI subsequence. -/
structure OpenProjectOracle where
  openFile : Except String Nat
  flowsheetCount : Nat
  getFlowsheet : Except String Nat
  visio : Except String Nat
  vpage : Except String Nat
  docs : Except String (List (String × Nat))

/-- `open_project_tool` (lines 561-595).  When the opened project has no
flowsheet the `flowsheet` field keeps its previous value. -/
def open_project_tool (s : ProMaxState) (filepath : String)
    (o : OpenProjectOracle) : ProMaxState × ToolRes :=
  if !s.is_connected then (s, .notConnected)
  else
    match o.openFile with
    | .error e => (s, .openProjectFailed e)
    | .ok p =>
      let s1 := { s with project := some p }
      if o.flowsheetCount > 0 then
        match o.getFlowsheet with
        | .error e => (s1, .openProjectFailed e)
        | .ok f =>
          let s2 := { s1 with flowsheet := some f }
          if s2.with_gui then
            match o.visio with
            | .error e => (s2, .openProjectFailed e)
            | .ok vh =>
              let s3 := { s2 with visio := some vh }
              match o.vpage with
              | .error e => (s3, .openProjectFailed e)
              | .ok pg =>
                let s4 := { s3 with vpage := some pg }
                match o.docs with
                | .error e => (s4, .openProjectFailed e)
                | .ok ds =>
                  ({ s4 with
                     stencils := ds.foldl
                       (fun acc d => dictInsert acc d.1 d.2) s4.stencils },
                   .openedProject filepath o.flowsheetCount)
          else (s2, .openedProject filepath o.flowsheetCount)
      else (s1, .openedProject filepath o.flowsheetCount)

/-- `components` argument of `add_components_tool`: list or string form. -/
inductive ComponentsInput where
  | list (cs : List String)
  | str (s : String)

/-- Lines 224-230: a comma-holding string is split and stripped, any other
string becomes a one-element list. -/
def normalizeComponents : ComponentsInput → List String
  | .list cs => cs
  | .str s =>
    if s.data.contains ',' then (pySplit s ',').map pyStrip
    else [s]

/-- `add_components_tool` (lines 209-252).  `envOk` is the
`flowsheet.Environment` access; `addOk` tells which per-component
`Components.Add` calls succeed (each is guarded by its own try/except).
The state is never mutated. -/
def add_components_tool (s : ProMaxState) (components : ComponentsInput)
    (envOk : Except String Unit) (addOk : String → Bool) :
    ProMaxState × ToolRes :=
  (s,
   if !s.has_flowsheet then .noFlowsheet
   else
     match envOk with
     | .error e => .addComponentsFailed e
     | .ok _ =>
       let cs := normalizeComponents components
       .addedComponents (cs.filter addOk) (cs.filter (fun c => !addOk c)))

/-- Vendor outcomes for `create_stream_tool`: the GUI `Masters`/`Drop`/`Name`
sequence producing a shape handle, or the background `CreatePStream` call. -/
structure CreateStreamOracle where
  drop : Except String Nat
  createPStream : Except String Unit

/-- `create_stream_tool` (lines 255-297). -/
def create_stream_tool (s : ProMaxState) (name : String)
    (o : CreateStreamOracle) : ProMaxState × ToolRes :=
  if !s.has_flowsheet then (s, .noFlowsheet)
  else if s.with_gui && s.vpage.isSome then
    if (s.stencils.lookup "Streams.vss").isNone then
      (s, .stencilNotLoaded "Streams.vss")
    else
      match o.drop with
      | .error e => (s, .createStreamFailed e)
      | .ok shape =>
        ({ s with stream_shapes := dictInsert s.stream_shapes name shape },
         .createdStream name)
  else
    match o.createPStream with
    | .error e => (s, .createStreamFailed e)
    | .ok _ => (s, .createdStreamDataOnly name)

/-- `BLOCK_TYPES` dict (lines 599-610). -/
def BLOCK_TYPES : List (String × Nat) :=
  [ ("separator", 12), ("staged_column", 15), ("mixer", 5), ("pump", 9),
    ("compressor", 0), ("heat_exchanger", 13), ("valve", 3), ("reactor", 18),
    ("divider", 2), ("pipeline", 7) ]

/-- `BLOCK_STENCILS` dict (lines 613-622). -/
def BLOCK_STENCILS : List (String × (String × String)) :=
  [ ("separator", ("Separators.vss", "2 Phase Separator - Vertical")),
    ("separator_3phase", ("Separators.vss", "3 Phase Separator")),
    ("staged_column", ("Column.vss", "Distill")),
    ("mixer", ("Mixer.vss", "Mixer")),
    ("pump", ("Fluid Drivers.vss", "Centrifugal Pump")),
    ("compressor", ("Fluid Drivers.vss", "Compressor")),
    ("heat_exchanger", ("Exchangers.vss", "Shell and Tube Exchanger")),
    ("valve", ("Valves.vss", "JT Valve")) ]

/-- Vendor outcomes for `create_block_tool`: the GUI drop (returning the
shape handle and the ProMax-generated shape name) or the background
`Blocks.Add`. -/
structure CreateBlockOracle where
  drop : Except String (Nat × String)
  addBlock : Except String Unit

/-- `create_block_tool` (lines 625-684).  `name` models `args.get("name")`;
the empty string stands for a missing or falsy name (the `if name:` guard). -/
def create_block_tool (s : ProMaxState) (block_type : String) (name : String)
    (o : CreateBlockOracle) : ProMaxState × ToolRes :=
  if !s.has_flowsheet then (s, .noFlowsheet)
  else
    let bt := pyLower block_type
    if s.with_gui && s.vpage.isSome then
      match BLOCK_STENCILS.lookup bt with
      | none => (s, .unknownBlockType bt)
      | some sm =>
        if (s.stencils.lookup sm.1).isNone then (s, .stencilNotLoaded sm.1)
        else
          match o.drop with
          | .error e => (s, .createBlockFailed e)
          | .ok shapeAndName =>
            let s1 := { s with
              block_shapes := dictInsert s.block_shapes shapeAndName.2
                shapeAndName.1 }
            let s2 :=
              if !name.isEmpty then
                { s1 with
                  block_shapes := dictInsert s1.block_shapes name
                    shapeAndName.1 }
              else s1
            (s2, .createdBlock bt shapeAndName.2)
    else
      match BLOCK_TYPES.lookup bt with
      | none => (s, .unknownBlockType bt)
      | some _tid =>
        match o.addBlock with
        | .error e => (s, .createBlockFailed e)
        | .ok _ => (s, .createdBlockDataOnly bt)

/-- `connect_stream_tool` (lines 687-735).  The `GlueTo` call is the oracle;
the state is never mutated. -/
def connect_stream_tool (s : ProMaxState) (stream_name block_name : String)
    (connection_point : Nat) (is_inlet : Bool)
    (glue : Except String Unit) : ProMaxState × ToolRes :=
  (s,
   if !s.has_flowsheet then .noFlowsheet
   else if !s.with_gui then .guiRequired
   else if (s.stream_shapes.lookup stream_name).isNone then
     .streamShapeNotFound stream_name
   else if (s.block_shapes.lookup block_name).isNone then
     .blockShapeNotFound block_name
   else
     match glue with
     | .error e => .connectStreamFailed e
     | .ok _ =>
       .connectedStream stream_name block_name connection_point is_inlet)

/-- `set_stream_properties_tool` (lines 300-339).  `vendor` covers the
`PStreams`/`Phases`/property assignments; the `convert_units` calls inside
use the fixed registered units "C", "kPa", "kmol/hr" (see
`convert_units_formulas`) and so cannot raise.  The state is never
mutated; the success message echoes the raw argument values. -/
def set_stream_properties_tool (s : ProMaxState) (stream_name : String)
    (temperature_c pressure_kpa molar_flow_kmol_hr : Option ℚ)
    (vendor : Except String Unit) : ProMaxState × ToolRes :=
  (s,
   if !s.has_flowsheet then .noFlowsheet
   else
     match vendor with
     | .error e => .setPropertiesFailed e
     | .ok _ =>
       .setProperties stream_name temperature_c pressure_kpa
         molar_flow_kmol_hr)

/-- Vendor outcomes for `set_stream_composition_tool`: the
`PStreams(name)` lookup, the environment component-name extraction of lines
377-391 (its `Except.ok` payload is the `env_comp_names` list, whose length
is `n_comps`; the per-component fallback naming is part of the loop), and
the final `Composition.SIValues` assignment. -/
structure SetCompOracle where
  stream : Except String Unit
  envNames : Except String (List String)
  setValues : Except String Unit

/-- `set_stream_composition_tool` (lines 342-423): flowsheet precondition,
string normalization, sum-to-1 validation (tolerance 0.001), stream lookup,
empty-registry check, case-insensitive matching, vendor assignment.  The
state is never mutated. -/
def set_stream_composition_tool (s : ProMaxState) (stream_name : String)
    (composition : CompositionInput) (o : SetCompOracle) :
    ProMaxState × ToolRes :=
  (s,
   if !s.has_flowsheet then .noFlowsheet
   else
     match normalizeComposition composition with
     | none => .setCompositionFailed "composition parse error"
     | some comp =>
       let total := (comp.map (fun p => p.2)).sum
       if |total - 1| > 1 / 1000 then .compositionSumError total
       else
         match o.stream with
         | .error e => .setCompositionFailed e
         | .ok _ =>
           match o.envNames with
           | .error e => .setCompositionFailed e
           | .ok env_comp_names =>
             if env_comp_names.length = 0 then .noComponentsInEnv
             else
               let r := resolveComposition comp env_comp_names
               match o.setValues with
               | .error e => .setCompositionFailed e
               | .ok _ => .setComposition stream_name r.matched r.unmatched)

/-- `flash_stream_tool` (lines 426-447). -/
def flash_stream_tool (s : ProMaxState) (stream_name : String)
    (flash : Except String Unit) : ProMaxState × ToolRes :=
  (s,
   if !s.has_flowsheet then .noFlowsheet
   else
     match flash with
     | .error e => .flashFailed e
     | .ok _ => .flashed stream_name)

/-- `get_stream_results_tool` (lines 450-483).  The oracle carries the three
raw SI property values; the falsy guards of lines 473-475 map a zero raw
value to `None`. -/
def get_stream_results_tool (s : ProMaxState) (stream_name : String)
    (vendor : Except String (ℚ × ℚ × ℚ)) : ProMaxState × ToolRes :=
  (s,
   if !s.has_flowsheet then .noFlowsheet
   else
     match vendor with
     | .error e => .getResultsFailed e
     | .ok v =>
       .streamResults stream_name
         (if v.1 = 0 then none else some (v.1 - 273.15))
         (if v.2.1 = 0 then none else some (v.2.1 / 1000))
         (if v.2.2 = 0 then none else some (v.2.2 * 3600 / 1000)))

/-- `run_simulation_tool` (lines 486-512).  The oracle is the `Solve()` call
together with the `LastSolverExecStatus` read. -/
def run_simulation_tool (s : ProMaxState) (solve : Except String Int) :
    ProMaxState × ToolRes :=
  (s,
   if !s.has_flowsheet then .noFlowsheet
   else
     match solve with
     | .error e => .simulationFailed e
     | .ok status =>
       if status ≥ 1 then .simulationConverged
       else .simulationNotConverged status)

/-- `save_project_tool` (lines 515-535). -/
def save_project_tool (s : ProMaxState) (filepath : String)
    (save : Except String Unit) : ProMaxState × ToolRes :=
  (s,
   if s.project.isNone then .noProjectToSave
   else
     match save with
     | .error e => .saveProjectFailed e
     | .ok _ => .savedProject filepath)

/-- `close_project_tool` (lines 538-558): informational result when no
project is open, otherwise `project.Close()` followed by a full reset. -/
def close_project_tool (s : ProMaxState) (closeCall : Except String Unit) :
    ProMaxState × ToolRes :=
  if s.project.isNone then (s, .noProjectToClose)
  else
    match closeCall with
    | .error e => (s, .closeProjectFailed e)
    | .ok _ => (s.reset, .projectClosed)

/-- `list_streams_tool` (lines 738-761). -/
def list_streams_tool (s : ProMaxState)
    (vendor : Except String (List String)) : ProMaxState × ToolRes :=
  (s,
   if !s.has_flowsheet then .noFlowsheet
   else
     match vendor with
     | .error e => .listStreamsFailed e
     | .ok names => .listedStreams names)

/-- `list_blocks_tool` (lines 764-787). -/
def list_blocks_tool (s : ProMaxState)
    (vendor : Except String (List String)) : ProMaxState × ToolRes :=
  (s,
   if !s.has_flowsheet then .noFlowsheet
   else
     match vendor with
     | .error e => .listBlocksFailed e
     | .ok names => .listedBlocks names)

/- ============================================================ -/
/- Session-machine definitions                                  -/
/- ============================================================ -/

/-- The session invariant of the spec: a present flowsheet handle implies a
present project handle, and a present project handle implies a present
connection handle. -/
def SessionInv (s : ProMaxState) : Prop :=
  (s.flowsheet.isSome → s.project.isSome) ∧
  (s.project.isSome → s.pmx.isSome)

/-- A connected state with an open project and an active flowsheet, used to
instantiate theorems at concrete inputs. -/
def sampleActiveState : ProMaxState :=
  { pmx := some 1, project := some 2, flowsheet := some 3, visio := none,
    vpage := none, stencils := [], stream_shapes := [], block_shapes := [],
    with_gui := false }

/-- Session states reachable from the initial state by any sequence of tool
calls, with arbitrary arguments and arbitrary vendor outcomes. -/
inductive Reachable : ProMaxState → Prop where
  | init : Reachable initialState
  | connect (s : ProMaxState) (g : Bool) (o : ConnectOracle) :
      Reachable s → Reachable (connect_promax_tool s g o).1
  | create_project (s : ProMaxState) (n : String) (o : CreateProjectOracle) :
      Reachable s → Reachable (create_project_tool s n o).1
  | open_project (s : ProMaxState) (f : String) (o : OpenProjectOracle) :
      Reachable s → Reachable (open_project_tool s f o).1
  | add_components (s : ProMaxState) (c : ComponentsInput)
      (e : Except String Unit) (a : String → Bool) :
      Reachable s → Reachable (add_components_tool s c e a).1
  | create_stream (s : ProMaxState) (n : String) (o : CreateStreamOracle) :
      Reachable s → Reachable (create_stream_tool s n o).1
  | create_block (s : ProMaxState) (bt n : String) (o : CreateBlockOracle) :
      Reachable s → Reachable (create_block_tool s bt n o).1
  | connect_stream (s : ProMaxState) (sn bn : String) (cp : Nat) (inl : Bool)
      (g : Except String Unit) :
      Reachable s → Reachable (connect_stream_tool s sn bn cp inl g).1
  | set_stream_properties (s : ProMaxState) (n : String)
      (t p f : Option ℚ) (v : Except String Unit) :
      Reachable s → Reachable (set_stream_properties_tool s n t p f v).1
  | set_stream_composition (s : ProMaxState) (n : String)
      (c : CompositionInput) (o : SetCompOracle) :
      Reachable s → Reachable (set_stream_composition_tool s n c o).1
  | flash_stream (s : ProMaxState) (n : String) (fl : Except String Unit) :
      Reachable s → Reachable (flash_stream_tool s n fl).1
  | get_stream_results (s : ProMaxState) (n : String)
      (v : Except String (ℚ × ℚ × ℚ)) :
      Reachable s → Reachable (get_stream_results_tool s n v).1
  | run_simulation (s : ProMaxState) (v : Except String Int) :
      Reachable s → Reachable (run_simulation_tool s v).1
  | save_project (s : ProMaxState) (f : String) (v : Except String Unit) :
      Reachable s → Reachable (save_project_tool s f v).1
  | close_project (s : ProMaxState) (c : Except String Unit) :
      Reachable s → Reachable (close_project_tool s c).1
  | list_streams (s : ProMaxState) (v : Except String (List String)) :
      Reachable s → Reachable (list_streams_tool s v).1
  | list_blocks (s : ProMaxState) (v : Except String (List String)) :
      Reachable s → Reachable (list_blocks_tool s v).1

/-- C3: every supported (value, unit, kind) triple is converted by exactly the
documented formula: temperature to kelvin (K ↦ x, C ↦ x+273.15,
F ↦ (x−32)·5/9+273.15, R ↦ x·5/9), pressure to pascal (Pa ↦ x, kPa ↦ x·1000,
bar ↦ x·100000, atm ↦ x·101325, psi ↦ x·6894.76), flow (mol/s, kg/s ↦ x,
kmol/hr ↦ x·1000/3600, kg/hr ↦ x/3600); in particular 0 °C = 273.15 K and
1 bar = 100000 Pa. -/
theorem convert_units_formulas : ∀ x : ℚ,
    convert_units x "K" "temperature" = .ok x ∧
    convert_units x "C" "temperature" = .ok (x + 273.15) ∧
    convert_units x "F" "temperature" = .ok ((x - 32) * 5 / 9 + 273.15) ∧
    convert_units x "R" "temperature" = .ok (x * 5 / 9) ∧
    convert_units x "Pa" "pressure" = .ok x ∧
    convert_units x "kPa" "pressure" = .ok (x * 1000) ∧
    convert_units x "bar" "pressure" = .ok (x * 100000) ∧
    convert_units x "atm" "pressure" = .ok (x * 101325) ∧
    convert_units x "psi" "pressure" = .ok (x * 6894.76) ∧
    convert_units x "mol/s" "flow" = .ok x ∧
    convert_units x "kmol/hr" "flow" = .ok (x * 1000 / 3600) ∧
    convert_units x "kg/s" "flow" = .ok x ∧
    convert_units x "kg/hr" "flow" = .ok (x / 3600) ∧
    convert_units 0 "C" "temperature" = .ok 273.15 ∧
    convert_units 1 "bar" "pressure" = .ok 100000 := by
  intro x
  refine ⟨rfl, rfl, rfl, rfl, rfl, rfl, rfl, rfl, rfl, rfl, rfl, rfl, rfl,
    ?_, ?_⟩
  · show Except.ok ((0 : ℚ) + 273.15) = Except.ok 273.15
    norm_num
  · show Except.ok ((1 : ℚ) * 100000) = Except.ok 100000
    norm_num

/-- C8: a kind outside temperature/pressure/flow yields `UnknownQuantityKind`;
a recognized kind with an unregistered unit yields `UnknownUnit`; in
particular ("InvalidUnit", temperature) and ("C", bogus kind). -/
theorem convert_units_unknown_errors :
    (∀ (x : ℚ) (unit kind : String),
        kind ∉ (["temperature", "pressure", "flow"] : List String) →
        convert_units x unit kind = .error (.unknownQuantityKind kind)) ∧
    (∀ (x : ℚ) (unit : String),
        unit ∉ (["K", "C", "F", "R"] : List String) →
        convert_units x unit "temperature" =
          .error (.unknownUnit "temperature" unit)) ∧
    (∀ (x : ℚ) (unit : String),
        unit ∉ (["Pa", "kPa", "bar", "atm", "psi"] : List String) →
        convert_units x unit "pressure" =
          .error (.unknownUnit "pressure" unit)) ∧
    (∀ (x : ℚ) (unit : String),
        unit ∉ (["mol/s", "kmol/hr", "kg/s", "kg/hr"] : List String) →
        convert_units x unit "flow" = .error (.unknownUnit "flow" unit)) ∧
    (∀ x : ℚ, convert_units x "InvalidUnit" "temperature" =
        .error (.unknownUnit "temperature" "InvalidUnit")) ∧
    (∀ x : ℚ, convert_units x "C" "bogus" =
        .error (.unknownQuantityKind "bogus")) := by
  refine ⟨?_, ?_, ?_, ?_, fun x => rfl, fun x => rfl⟩
  · intro x unit kind h
    simp only [List.mem_cons, List.not_mem_nil, or_false, not_or] at h
    have e1 : (kind == "temperature") = false := beq_eq_false_iff_ne.mpr h.1
    have e2 : (kind == "pressure") = false := beq_eq_false_iff_ne.mpr h.2.1
    have e3 : (kind == "flow") = false := beq_eq_false_iff_ne.mpr h.2.2
    simp [convert_units, UNIT_CONVERSIONS, List.lookup, e1, e2, e3]
  · intro x unit h
    simp only [List.mem_cons, List.not_mem_nil, or_false, not_or] at h
    have e1 : (unit == "K") = false := beq_eq_false_iff_ne.mpr h.1
    have e2 : (unit == "C") = false := beq_eq_false_iff_ne.mpr h.2.1
    have e3 : (unit == "F") = false := beq_eq_false_iff_ne.mpr h.2.2.1
    have e4 : (unit == "R") = false := beq_eq_false_iff_ne.mpr h.2.2.2
    simp [convert_units, UNIT_CONVERSIONS, List.lookup, e1, e2, e3, e4]
  · intro x unit h
    simp only [List.mem_cons, List.not_mem_nil, or_false, not_or] at h
    have e1 : (unit == "Pa") = false := beq_eq_false_iff_ne.mpr h.1
    have e2 : (unit == "kPa") = false := beq_eq_false_iff_ne.mpr h.2.1
    have e3 : (unit == "bar") = false := beq_eq_false_iff_ne.mpr h.2.2.1
    have e4 : (unit == "atm") = false := beq_eq_false_iff_ne.mpr h.2.2.2.1
    have e5 : (unit == "psi") = false := beq_eq_false_iff_ne.mpr h.2.2.2.2
    simp [convert_units, UNIT_CONVERSIONS, List.lookup, e1, e2, e3, e4, e5]
  · intro x unit h
    simp only [List.mem_cons, List.not_mem_nil, or_false, not_or] at h
    have e1 : (unit == "mol/s") = false := beq_eq_false_iff_ne.mpr h.1
    have e2 : (unit == "kmol/hr") = false := beq_eq_false_iff_ne.mpr h.2.1
    have e3 : (unit == "kg/s") = false := beq_eq_false_iff_ne.mpr h.2.2.1
    have e4 : (unit == "kg/hr") = false := beq_eq_false_iff_ne.mpr h.2.2.2
    simp [convert_units, UNIT_CONVERSIONS, List.lookup, e1, e2, e3, e4]

/-- Witness for C8 at concrete inputs. -/
theorem convert_units_unknown_errors_witness :
    ("bogus" ∉ (["temperature", "pressure", "flow"] : List String)) ∧
    convert_units 1 "C" "bogus" = .error (.unknownQuantityKind "bogus") :=
  ⟨by decide, convert_units_unknown_errors.1 1 "C" "bogus" (by decide)⟩

/- ============================================================ -/
/- Properties of the composition resolver                       -/
/- ============================================================ -/

theorem firstMatchIdx_lt {k : String} :
    ∀ {names : List String} {i : Nat},
    firstMatchIdx k names = some i → i < names.length := by
  intro names
  induction names with
  | nil => intro i h; simp [firstMatchIdx] at h
  | cons n rest ih =>
    intro i h
    simp only [firstMatchIdx] at h
    split at h
    · simp only [Option.some.injEq] at h
      simp only [List.length_cons]
      omega
    · cases hm : firstMatchIdx k rest with
      | none => rw [hm] at h; simp at h
      | some j =>
        rw [hm] at h
        simp only [Option.map_some', Option.some.injEq] at h
        have hj := ih hm
        simp only [List.length_cons]
        omega

theorem firstMatchIdx_same_idx {k1 k2 : String} :
    ∀ {names : List String} {i : Nat},
    firstMatchIdx k1 names = some i → firstMatchIdx k2 names = some i →
    pyLower k1 = pyLower k2 := by
  intro names
  induction names with
  | nil => intro i h1 _; simp [firstMatchIdx] at h1
  | cons n rest ih =>
    intro i h1 h2
    simp only [firstMatchIdx] at h1 h2
    split at h1
    · simp only [Option.some.injEq] at h1
      split at h2
      · rename_i c1 c2
        exact (beq_iff_eq.mp c1).trans (beq_iff_eq.mp c2).symm
      · cases hm : firstMatchIdx k2 rest with
        | none => rw [hm] at h2; simp at h2
        | some j =>
          rw [hm] at h2
          simp only [Option.map_some', Option.some.injEq] at h2
          omega
    · cases hm1 : firstMatchIdx k1 rest with
      | none => rw [hm1] at h1; simp at h1
      | some j1 =>
        rw [hm1] at h1
        simp only [Option.map_some', Option.some.injEq] at h1
        split at h2
        · simp only [Option.some.injEq] at h2
          omega
        · cases hm2 : firstMatchIdx k2 rest with
          | none => rw [hm2] at h2; simp at h2
          | some j2 =>
            rw [hm2] at h2
            simp only [Option.map_some', Option.some.injEq] at h2
            have : j1 = j2 := by omega
            exact ih hm1 (this ▸ hm2)

theorem resolve_foldl_length (names : List String) :
    ∀ (comp : List (String × ℚ)) (acc : ResolveResult),
    ((comp.foldl (resolveStep names) acc).vector).length =
      acc.vector.length := by
  intro comp
  induction comp with
  | nil => intro acc; rfl
  | cons kv rest ih =>
    intro acc
    simp only [List.foldl_cons]
    rw [ih]
    cases hm : firstMatchIdx kv.1 names <;>
      simp [resolveStep, hm, List.length_set]

theorem resolve_foldl_unmatched (names : List String) :
    ∀ (comp : List (String × ℚ)) (acc : ResolveResult),
    (comp.foldl (resolveStep names) acc).unmatched =
      acc.unmatched ++
        (comp.filter (fun p => (firstMatchIdx p.1 names).isNone)).map
          (fun p => p.1) := by
  intro comp
  induction comp with
  | nil => intro acc; simp
  | cons kv rest ih =>
    intro acc
    simp only [List.foldl_cons]
    rw [ih]
    cases hm : firstMatchIdx kv.1 names with
    | none =>
      simp [resolveStep, hm, List.filter_cons, List.append_assoc]
    | some j =>
      simp [resolveStep, hm, List.filter_cons]

theorem resolve_foldl_matched (names : List String) :
    ∀ (comp : List (String × ℚ)) (acc : ResolveResult),
    (comp.foldl (resolveStep names) acc).matched =
      acc.matched ++
        (comp.filter (fun p => (firstMatchIdx p.1 names).isSome)).map
          (fun p => p.1) := by
  intro comp
  induction comp with
  | nil => intro acc; simp
  | cons kv rest ih =>
    intro acc
    simp only [List.foldl_cons]
    rw [ih]
    cases hm : firstMatchIdx kv.1 names with
    | none => simp [resolveStep, hm, List.filter_cons]
    | some j =>
      simp [resolveStep, hm, List.filter_cons, List.append_assoc]

theorem resolve_foldl_get_no_hit (names : List String) (i : Nat) :
    ∀ (comp : List (String × ℚ)) (acc : ResolveResult),
    (∀ p ∈ comp, firstMatchIdx p.1 names ≠ some i) →
    ((comp.foldl (resolveStep names) acc).vector)[i]? =
      acc.vector[i]? := by
  intro comp
  induction comp with
  | nil => intro acc _; rfl
  | cons kv rest ih =>
    intro acc h
    simp only [List.foldl_cons]
    rw [ih _ (fun p hp => h p (List.mem_cons_of_mem _ hp))]
    cases hm : firstMatchIdx kv.1 names with
    | none => simp [resolveStep, hm]
    | some j =>
      have hji : j ≠ i := by
        intro e
        exact h kv (List.mem_cons_self _ _) (by rw [hm, e])
      simp [resolveStep, hm, List.getElem?_set_ne hji]

theorem resolve_foldl_get_hit (names : List String) :
    ∀ (comp : List (String × ℚ)) (acc : ResolveResult) (k : String) (v : ℚ)
      (i : Nat),
    (comp.map (fun p => pyLower p.1)).Nodup →
    (k, v) ∈ comp →
    firstMatchIdx k names = some i →
    acc.vector.length = names.length →
    ((comp.foldl (resolveStep names) acc).vector)[i]? = some v := by
  intro comp
  induction comp with
  | nil => intro acc k v i _ hmem _ _; simp at hmem
  | cons kv rest ih =>
    intro acc k v i hnd hmem hfm hlen
    simp only [List.map_cons, List.nodup_cons] at hnd
    rcases List.mem_cons.mp hmem with heq | hmem2
    · cases heq
      simp only [List.foldl_cons]
      have hnohit : ∀ p ∈ rest, firstMatchIdx p.1 names ≠ some i := by
        intro p hp hcon
        exact hnd.1
          (List.mem_map.mpr ⟨p, hp, firstMatchIdx_same_idx hcon hfm⟩)
      rw [resolve_foldl_get_no_hit names i rest _ hnohit]
      simp only [resolveStep, hfm]
      exact List.getElem?_set_self (by rw [hlen]; exact firstMatchIdx_lt hfm)
    · simp only [List.foldl_cons]
      refine ih _ k v i hnd.2 hmem2 hfm ?_
      cases hm : firstMatchIdx kv.1 names <;>
        simp [resolveStep, hm, List.length_set, hlen]

/-- C1 (amended): for every composition mapping whose keys are pairwise
distinct case-insensitively and every non-empty registry, the resolver
produces a dense vector of registry length; each key's fraction lands at its
first case-insensitively matching registry index; every registry slot
matched by no key holds 0; the unmatched (and matched) keys are collected in
iteration order without aborting. -/
theorem resolveComposition_correct (comp : List (String × ℚ))
    (names : List String) (hN : names ≠ [])
    (hkeys : (comp.map (fun p => pyLower p.1)).Nodup) :
    ((resolveComposition comp names).vector).length = names.length ∧
    (∀ p ∈ comp, ∀ i, firstMatchIdx p.1 names = some i →
      ((resolveComposition comp names).vector)[i]? = some p.2) ∧
    (∀ i, i < names.length →
      (∀ p ∈ comp, firstMatchIdx p.1 names ≠ some i) →
      ((resolveComposition comp names).vector)[i]? = some 0) ∧
    (resolveComposition comp names).unmatched =
      (comp.filter (fun p => (firstMatchIdx p.1 names).isNone)).map
        (fun p => p.1) ∧
    (resolveComposition comp names).matched =
      (comp.filter (fun p => (firstMatchIdx p.1 names).isSome)).map
        (fun p => p.1) := by
  refine ⟨?_, ?_, ?_, ?_, ?_⟩
  · simp only [resolveComposition]
    rw [resolve_foldl_length]
    simp
  · intro p hp i hfm
    simp only [resolveComposition]
    exact resolve_foldl_get_hit names comp _ p.1 p.2 i hkeys
      (by rw [Prod.mk.eta]; exact hp) hfm (by simp)
  · intro i hi hno
    simp only [resolveComposition]
    rw [resolve_foldl_get_no_hit names i comp _ hno]
    simp [List.getElem?_replicate_of_lt hi]
  · simp only [resolveComposition]
    rw [resolve_foldl_unmatched]
    simp
  · simp only [resolveComposition]
    rw [resolve_foldl_matched]
    simp

/-- C1 counterexample: with the two distinct keys methane and METHANE both
matching registry entry Methane, the earlier key's fraction does not end up
at its first matching registry index, so the per-key assignment clause fails
for an arbitrary composition mapping. -/
theorem resolveComposition_per_key_counterexample :
    ¬ (∀ (comp : List (String × ℚ)) (names : List String), names ≠ [] →
        ∀ p ∈ comp, ∀ i, firstMatchIdx p.1 names = some i →
          ((resolveComposition comp names).vector)[i]? = some p.2) := by
  intro h
  have hin : ("methane", (3 : ℚ)/10) ∈
      [("methane", (3 : ℚ)/10), ("METHANE", (7 : ℚ)/10)] :=
    List.Mem.head _
  have hfm : firstMatchIdx "methane" ["Methane", "Ethane"] = some 0 := by
    decide
  have hval := h [("methane", (3 : ℚ)/10), ("METHANE", (7 : ℚ)/10)]
    ["Methane", "Ethane"] (by decide) ("methane", (3 : ℚ)/10) hin 0 hfm
  have hactual : ((resolveComposition
      [("methane", (3 : ℚ)/10), ("METHANE", (7 : ℚ)/10)]
      ["Methane", "Ethane"]).vector)[0]? = some ((7 : ℚ)/10) := rfl
  rw [hactual] at hval
  simp only [Option.some.injEq] at hval
  norm_num at hval

/-- Witness for C1 (amended) at the case-insensitive example of the spec. -/
theorem resolveComposition_correct_witness :
    ((["Methane", "Ethane", "Propane"] : List String) ≠ []) ∧
    (([("methane", (1 : ℚ)/2), ("ETHANE", (1 : ℚ)/2)].map
        (fun p => pyLower p.1)).Nodup) ∧
    (((resolveComposition [("methane", (1 : ℚ)/2), ("ETHANE", (1 : ℚ)/2)]
        ["Methane", "Ethane", "Propane"]).vector).length =
      (["Methane", "Ethane", "Propane"] : List String).length ∧
    (∀ p ∈ [("methane", (1 : ℚ)/2), ("ETHANE", (1 : ℚ)/2)], ∀ i,
        firstMatchIdx p.1 ["Methane", "Ethane", "Propane"] = some i →
        ((resolveComposition [("methane", (1 : ℚ)/2), ("ETHANE", (1 : ℚ)/2)]
          ["Methane", "Ethane", "Propane"]).vector)[i]? = some p.2) ∧
    (∀ i, i < (["Methane", "Ethane", "Propane"] : List String).length →
      (∀ p ∈ [("methane", (1 : ℚ)/2), ("ETHANE", (1 : ℚ)/2)],
        firstMatchIdx p.1 ["Methane", "Ethane", "Propane"] ≠ some i) →
      ((resolveComposition [("methane", (1 : ℚ)/2), ("ETHANE", (1 : ℚ)/2)]
        ["Methane", "Ethane", "Propane"]).vector)[i]? = some 0) ∧
    (resolveComposition [("methane", (1 : ℚ)/2), ("ETHANE", (1 : ℚ)/2)]
        ["Methane", "Ethane", "Propane"]).unmatched =
      ([("methane", (1 : ℚ)/2), ("ETHANE", (1 : ℚ)/2)].filter
        (fun p => (firstMatchIdx p.1
          ["Methane", "Ethane", "Propane"]).isNone)).map (fun p => p.1) ∧
    (resolveComposition [("methane", (1 : ℚ)/2), ("ETHANE", (1 : ℚ)/2)]
        ["Methane", "Ethane", "Propane"]).matched =
      ([("methane", (1 : ℚ)/2), ("ETHANE", (1 : ℚ)/2)].filter
        (fun p => (firstMatchIdx p.1
          ["Methane", "Ethane", "Propane"]).isSome)).map (fun p => p.1)) :=
  ⟨by decide, by decide,
    resolveComposition_correct _ _ (by decide) (by decide)⟩

/-- C9: two distinct keys that coincide case-insensitively both match the
same registry slot; the later key's fraction overwrites the earlier one, yet
both keys are reported as matched, the result is a success (no error, no
warning since nothing is unmatched), and the resolved vector is not
re-validated against the sum even though only the later fraction survives. -/
theorem composition_key_overwrite (s : ProMaxState) (q1 q2 : ℚ)
    (o : SetCompOracle) (hfs : s.has_flowsheet = true)
    (hsum : |q1 + q2 - 1| ≤ 1 / 1000)
    (ho1 : o.stream = .ok ()) (ho2 : o.envNames = .ok ["Methane"])
    (ho3 : o.setValues = .ok ()) :
    set_stream_composition_tool s "S1"
        (.dict [("methane", q1), ("METHANE", q2)]) o =
      (s, .setComposition "S1" ["methane", "METHANE"] []) ∧
    (resolveComposition [("methane", q1), ("METHANE", q2)]
        ["Methane"]).vector = [q2] := by
  have hm1 : firstMatchIdx "methane" ["Methane"] = some 0 := by decide
  have hm2 : firstMatchIdx "METHANE" ["Methane"] = some 0 := by decide
  have hr : resolveComposition [("methane", q1), ("METHANE", q2)]
      ["Methane"] =
      { vector := [q2], matched := ["methane", "METHANE"],
        unmatched := [] } := by
    simp [resolveComposition, resolveStep, hm1, hm2, List.set]
  have hlt : ¬ (|q1 + (q2 + 0) - 1| > 1 / 1000) := by
    rw [add_zero]
    exact not_lt.mpr hsum
  refine ⟨?_, by rw [hr]⟩
  simp only [set_stream_composition_tool, normalizeComposition, hfs,
    Bool.not_true, Bool.false_eq_true, if_false, List.map_cons, List.map_nil,
    List.sum_cons, List.sum_nil, hlt, if_neg hlt, ho1, ho2, ho3, hr]
  norm_num

/- ============================================================ -/
/- Invariant preservation helpers                               -/
/- ============================================================ -/

theorem connect_preserves_inv (s : ProMaxState) (g : Bool)
    (o : ConnectOracle) (h : SessionInv s) :
    SessionInv (connect_promax_tool s g o).1 := by
  unfold connect_promax_tool
  cases o.dispatch with
  | error e => exact h
  | ok hd =>
    cases o.version with
    | error e => exact ⟨h.1, fun _ => rfl⟩
    | ok v => exact ⟨h.1, fun _ => rfl⟩

theorem create_project_preserves_inv (s : ProMaxState) (n : String)
    (o : CreateProjectOracle) (h : SessionInv s) :
    SessionInv (create_project_tool s n o).1 := by
  unfold create_project_tool
  cases hc : s.is_connected with
  | false => simp only [hc, Bool.not_false, if_true]; exact h
  | true =>
    simp only [hc, Bool.not_true, Bool.false_eq_true, if_false]
    have hpmx : s.pmx.isSome := hc
    cases o.newProject with
    | error e => exact h
    | ok p =>
      cases o.addFlowsheet with
      | error e => exact ⟨fun _ => rfl, fun _ => hpmx⟩
      | ok f =>
        cases hg : s.with_gui with
        | false => exact ⟨fun _ => rfl, fun _ => hpmx⟩
        | true =>
          simp only [hg]
          cases o.visio with
          | error e => exact ⟨fun _ => rfl, fun _ => hpmx⟩
          | ok vh =>
            cases o.vpage with
            | error e => exact ⟨fun _ => rfl, fun _ => hpmx⟩
            | ok pg =>
              cases o.docs with
              | error e => exact ⟨fun _ => rfl, fun _ => hpmx⟩
              | ok ds => exact ⟨fun _ => rfl, fun _ => hpmx⟩

theorem open_project_preserves_inv (s : ProMaxState) (f : String)
    (o : OpenProjectOracle) (h : SessionInv s) :
    SessionInv (open_project_tool s f o).1 := by
  unfold open_project_tool
  split
  · exact h
  · rename_i hcon
    have hpmx : s.pmx.isSome = true := by
      cases hb : s.is_connected
      · exact absurd (by rw [hb]; rfl) hcon
      · exact hb
    try dsimp only
    repeat' split
    all_goals first | exact h | exact ⟨fun _ => rfl, fun _ => hpmx⟩

theorem create_stream_preserves_inv (s : ProMaxState) (n : String)
    (o : CreateStreamOracle) (h : SessionInv s) :
    SessionInv (create_stream_tool s n o).1 := by
  unfold create_stream_tool
  split
  · exact h
  · split
    · split
      · exact h
      · cases o.drop with
        | error e => exact h
        | ok shape => exact h
    · cases o.createPStream with
      | error e => exact h
      | ok u => exact h

theorem create_block_preserves_inv (s : ProMaxState) (bt n : String)
    (o : CreateBlockOracle) (h : SessionInv s) :
    SessionInv (create_block_tool s bt n o).1 := by
  unfold create_block_tool
  try dsimp only
  repeat' split
  all_goals exact h

theorem close_project_preserves_inv (s : ProMaxState)
    (c : Except String Unit) (h : SessionInv s) :
    SessionInv (close_project_tool s c).1 := by
  unfold close_project_tool
  split
  · exact h
  · split
    · exact h
    · exact ⟨(fun hf => by simp [ProMaxState.reset] at hf),
        (fun hp => by simp [ProMaxState.reset] at hp)⟩

/- ============================================================ -/
/- Claim theorems on the session machine                        -/
/- ============================================================ -/

/-- C4: every session state reachable through any sequence of tool calls
satisfies the invariant (flowsheet present implies project present implies
connection present); reset clears every field at once, and the resulting
all-absent state satisfies the invariant. -/
theorem session_state_invariant :
    (∀ s : ProMaxState, Reachable s → SessionInv s) ∧
    (∀ s : ProMaxState, ProMaxState.reset s = initialState) ∧
    SessionInv initialState := by
  have hinit : SessionInv initialState :=
    ⟨(fun hf => nomatch hf), (fun hp => nomatch hp)⟩
  refine ⟨?_, fun s => rfl, hinit⟩
  intro s hr
  induction hr with
  | init => exact hinit
  | connect s g o _ ih => exact connect_preserves_inv s g o ih
  | create_project s n o _ ih => exact create_project_preserves_inv s n o ih
  | open_project s f o _ ih => exact open_project_preserves_inv s f o ih
  | add_components s c e a _ ih => exact ih
  | create_stream s n o _ ih => exact create_stream_preserves_inv s n o ih
  | create_block s bt n o _ ih => exact create_block_preserves_inv s bt n o ih
  | connect_stream s sn bn cp inl g _ ih => exact ih
  | set_stream_properties s n t p f v _ ih => exact ih
  | set_stream_composition s n c o _ ih => exact ih
  | flash_stream s n fl _ ih => exact ih
  | get_stream_results s n v _ ih => exact ih
  | run_simulation s v _ ih => exact ih
  | save_project s f v _ ih => exact ih
  | close_project s c _ ih => exact close_project_preserves_inv s c ih
  | list_streams s v _ ih => exact ih
  | list_blocks s v _ ih => exact ih

/-- Witness for C4 at a concrete reachable state (connect, then create). -/
theorem session_state_invariant_witness :
    Reachable ((create_project_tool
      (connect_promax_tool initialState false ⟨.ok 1, .ok "6.0"⟩).1 "Main"
      ⟨.ok 2, .ok 3, .ok 4, .ok 5, .ok []⟩).1) ∧
    SessionInv ((create_project_tool
      (connect_promax_tool initialState false ⟨.ok 1, .ok "6.0"⟩).1 "Main"
      ⟨.ok 2, .ok 3, .ok 4, .ok 5, .ok []⟩).1) :=
  have hr : Reachable ((create_project_tool
      (connect_promax_tool initialState false ⟨.ok 1, .ok "6.0"⟩).1 "Main"
      ⟨.ok 2, .ok 3, .ok 4, .ok 5, .ok []⟩).1) :=
    Reachable.create_project _ _ _ (Reachable.connect _ _ _ Reachable.init)
  ⟨hr, session_state_invariant.1 _ hr⟩

/-- C5 (code bug): `connect_promax_tool` assigns `state.pmx` and
`state.with_gui` before the `Version` read, and `create_project_tool`
assigns `state.project` before `Flowsheets.Add`; when the later vendor call
fails the tool returns an error result but the earlier assignment survives,
so a failed transition mutates the session state. -/
theorem failed_transition_partial_mutation :
    ((connect_promax_tool initialState true
        ⟨.ok 7, .error "version read failed"⟩).2).isError = true ∧
    (connect_promax_tool initialState true
        ⟨.ok 7, .error "version read failed"⟩).1 ≠ initialState ∧
    (connect_promax_tool initialState true
        ⟨.ok 7, .error "version read failed"⟩).1.pmx = some 7 ∧
    ((create_project_tool { initialState with pmx := some 7 } "Main"
        ⟨.ok 3, .error "flowsheet add failed", .ok 0, .ok 0, .ok []⟩).2).isError
      = true ∧
    (create_project_tool { initialState with pmx := some 7 } "Main"
        ⟨.ok 3, .error "flowsheet add failed", .ok 0, .ok 0, .ok []⟩).1 ≠
      { initialState with pmx := some 7 } ∧
    (create_project_tool { initialState with pmx := some 7 } "Main"
        ⟨.ok 3, .error "flowsheet add failed", .ok 0, .ok 0, .ok []⟩).1.project
      = some 3 := by
  decide

/-- C6: every flowsheet-scoped tool invoked without an active flowsheet
returns the no-flowsheet precondition error with the state unchanged and no
other work done (the result does not depend on the composition argument or
on any vendor outcome, so the check precedes all argument normalization);
create-project and open-project invoked while not connected return the
not-connected precondition error. -/
theorem precondition_checks_first :
    (∀ (s : ProMaxState) (n : String) (c : CompositionInput)
        (o : SetCompOracle), s.has_flowsheet = false →
        set_stream_composition_tool s n c o = (s, .noFlowsheet)) ∧
    (∀ (s : ProMaxState) (n : String) (o : CreateStreamOracle),
        s.has_flowsheet = false → create_stream_tool s n o =
          (s, .noFlowsheet)) ∧
    (∀ (s : ProMaxState) (bt n : String) (o : CreateBlockOracle),
        s.has_flowsheet = false → create_block_tool s bt n o =
          (s, .noFlowsheet)) ∧
    (∀ (s : ProMaxState) (n : String) (t p f : Option ℚ)
        (v : Except String Unit), s.has_flowsheet = false →
        set_stream_properties_tool s n t p f v = (s, .noFlowsheet)) ∧
    (∀ (s : ProMaxState) (n : String) (fl : Except String Unit),
        s.has_flowsheet = false → flash_stream_tool s n fl =
          (s, .noFlowsheet)) ∧
    (∀ (s : ProMaxState) (n : String) (v : Except String (ℚ × ℚ × ℚ)),
        s.has_flowsheet = false → get_stream_results_tool s n v =
          (s, .noFlowsheet)) ∧
    (∀ (s : ProMaxState) (v : Except String Int),
        s.has_flowsheet = false → run_simulation_tool s v =
          (s, .noFlowsheet)) ∧
    (∀ (s : ProMaxState) (c : ComponentsInput) (e : Except String Unit)
        (a : String → Bool), s.has_flowsheet = false →
        add_components_tool s c e a = (s, .noFlowsheet)) ∧
    (∀ (s : ProMaxState) (sn bn : String) (cp : Nat) (inl : Bool)
        (g : Except String Unit), s.has_flowsheet = false →
        connect_stream_tool s sn bn cp inl g = (s, .noFlowsheet)) ∧
    (∀ (s : ProMaxState) (v : Except String (List String)),
        s.has_flowsheet = false → list_streams_tool s v =
          (s, .noFlowsheet)) ∧
    (∀ (s : ProMaxState) (v : Except String (List String)),
        s.has_flowsheet = false → list_blocks_tool s v =
          (s, .noFlowsheet)) ∧
    (∀ (s : ProMaxState) (n : String) (o : CreateProjectOracle),
        s.is_connected = false → create_project_tool s n o =
          (s, .notConnected)) ∧
    (∀ (s : ProMaxState) (f : String) (o : OpenProjectOracle),
        s.is_connected = false → open_project_tool s f o =
          (s, .notConnected)) := by
  refine ⟨?_, ?_, ?_, ?_, ?_, ?_, ?_, ?_, ?_, ?_, ?_, ?_, ?_⟩
  · intro s n c o h; simp [set_stream_composition_tool, h]
  · intro s n o h; simp [create_stream_tool, h]
  · intro s bt n o h; simp [create_block_tool, h]
  · intro s n t p f v h; simp [set_stream_properties_tool, h]
  · intro s n fl h; simp [flash_stream_tool, h]
  · intro s n v h; simp [get_stream_results_tool, h]
  · intro s v h; simp [run_simulation_tool, h]
  · intro s c e a h; simp [add_components_tool, h]
  · intro s sn bn cp inl g h; simp [connect_stream_tool, h]
  · intro s v h; simp [list_streams_tool, h]
  · intro s v h; simp [list_blocks_tool, h]
  · intro s n o h; simp [create_project_tool, h]
  · intro s f o h; simp [open_project_tool, h]

/-- Witness for C6: even an unparseable composition string and all-failing
vendor oracles yield exactly the precondition error on the initial state. -/
theorem precondition_checks_first_witness :
    initialState.has_flowsheet = false ∧
    set_stream_composition_tool initialState "S1" (.str "not a composition")
      ⟨.error "a", .error "b", .error "c"⟩ = (initialState, .noFlowsheet) :=
  ⟨rfl, precondition_checks_first.1 initialState "S1" _ _ rfl⟩

/-- C7: reset is constant (twice in a row gives the same empty state), the
empty state has all handles absent, both predicates false and all registries
empty; closing with no open project returns the same non-error informational
result every time and leaves the state unchanged; a successful close fully
resets all fields including the named-shape registries. -/
theorem reset_and_close_idempotent :
    (∀ s : ProMaxState, (ProMaxState.reset s).reset = ProMaxState.reset s) ∧
    (∀ s : ProMaxState, ProMaxState.reset s = initialState) ∧
    (initialState.is_connected = false ∧
      initialState.has_flowsheet = false ∧
      initialState.pmx = none ∧ initialState.project = none ∧
      initialState.flowsheet = none ∧ initialState.stencils = [] ∧
      initialState.stream_shapes = [] ∧ initialState.block_shapes = []) ∧
    (∀ (s : ProMaxState) (c1 c2 : Except String Unit), s.project = none →
        close_project_tool s c1 = (s, .noProjectToClose) ∧
        close_project_tool (close_project_tool s c1).1 c2 =
          (s, .noProjectToClose) ∧
        ToolRes.noProjectToClose.isError = false) ∧
    (∀ (s : ProMaxState) (p : Nat) (c : Except String Unit),
        s.project = some p → c = .ok () →
        close_project_tool s c = (initialState, .projectClosed)) := by
  refine ⟨fun s => rfl, fun s => rfl, by decide, ?_, ?_⟩
  · intro s c1 c2 hp
    have h1 : close_project_tool s c1 = (s, .noProjectToClose) := by
      simp [close_project_tool, hp]
    exact ⟨h1, by rw [h1]; simp [close_project_tool, hp], rfl⟩
  · intro s p c hp hc
    subst hc
    simp [close_project_tool, hp]
    rfl

/-- Witness for C7 at concrete states. -/
theorem reset_and_close_idempotent_witness :
    sampleActiveState.project = some 2 ∧
    close_project_tool sampleActiveState (.ok ()) =
      (initialState, .projectClosed) ∧
    initialState.project = none ∧
    close_project_tool initialState (.ok ()) =
      (initialState, .noProjectToClose) :=
  ⟨rfl,
   reset_and_close_idempotent.2.2.2.2 sampleActiveState 2 (.ok ()) rfl rfl,
   rfl,
   (reset_and_close_idempotent.2.2.2.1 initialState (.ok ()) (.ok ()) rfl).1⟩

/-- C2: a composition whose values sum more than 0.001 away from 1 makes the
tool return the sum error carrying the computed sum, for arbitrary vendor
oracles (so independently of the registry, with the state unchanged and no
simulator call consulted); with a valid sum and an empty registry the tool
returns the no-components error before any matching; the sum check thus
precedes both. -/
theorem composition_validation_order :
    (∀ (s : ProMaxState) (stream : String) (comp : CompositionInput)
        (m : List (String × ℚ)) (o : SetCompOracle),
        s.has_flowsheet = true →
        normalizeComposition comp = some m →
        |(m.map (fun p => p.2)).sum - 1| > 1 / 1000 →
        set_stream_composition_tool s stream comp o =
          (s, .compositionSumError ((m.map (fun p => p.2)).sum))) ∧
    (∀ (s : ProMaxState) (stream : String) (comp : CompositionInput)
        (m : List (String × ℚ)) (o : SetCompOracle),
        s.has_flowsheet = true →
        normalizeComposition comp = some m →
        |(m.map (fun p => p.2)).sum - 1| ≤ 1 / 1000 →
        o.stream = .ok () → o.envNames = .ok [] →
        set_stream_composition_tool s stream comp o =
          (s, .noComponentsInEnv)) := by
  constructor
  · intro s stream comp m o hfs hn hgt
    simp only [set_stream_composition_tool, hfs, Bool.not_true,
      Bool.false_eq_true, if_false, hn]
    rw [if_pos hgt]
  · intro s stream comp m o hfs hn hle ho1 ho2
    simp only [set_stream_composition_tool, hfs, Bool.not_true,
      Bool.false_eq_true, if_false, hn]
    rw [if_neg (not_lt.mpr hle)]
    simp only [ho1, ho2]
    rfl

/-- Witness for C2 at the spec example (sum 0.8). -/
theorem composition_validation_order_witness :
    sampleActiveState.has_flowsheet = true ∧
    |(([("Methane", (5 : ℚ)/10), ("Ethane", (3 : ℚ)/10)].map
        (fun p => p.2)).sum) - 1| > 1 / 1000 ∧
    set_stream_composition_tool sampleActiveState "S1"
        (.dict [("Methane", (5 : ℚ)/10), ("Ethane", (3 : ℚ)/10)])
        ⟨.ok (), .ok ["Methane", "Ethane"], .ok ()⟩ =
      (sampleActiveState, .compositionSumError
        (([("Methane", (5 : ℚ)/10), ("Ethane", (3 : ℚ)/10)].map
          (fun p => p.2)).sum)) :=
  ⟨rfl,
   by norm_num [List.map_cons, List.map_nil, List.sum_cons, List.sum_nil,
     lt_abs],
   composition_validation_order.1 _ _ _ _ _ rfl rfl
     (by norm_num [List.map_cons, List.map_nil, List.sum_cons,
       List.sum_nil, lt_abs])⟩

/-- Witness for C9 at fractions 0.3 / 0.7 summing to 1. -/
theorem composition_key_overwrite_witness :
    sampleActiveState.has_flowsheet = true ∧
    |(3 : ℚ)/10 + 7/10 - 1| ≤ 1 / 1000 ∧
    set_stream_composition_tool sampleActiveState "S1"
        (.dict [("methane", (3 : ℚ)/10), ("METHANE", (7 : ℚ)/10)])
        ⟨.ok (), .ok ["Methane"], .ok ()⟩ =
      (sampleActiveState, .setComposition "S1" ["methane", "METHANE"] []) ∧
    (resolveComposition [("methane", (3 : ℚ)/10), ("METHANE", (7 : ℚ)/10)]
        ["Methane"]).vector = [(7 : ℚ)/10] :=
  ⟨rfl, by norm_num [abs_le],
   (composition_key_overwrite sampleActiveState ((3 : ℚ)/10) ((7 : ℚ)/10)
     ⟨.ok (), .ok ["Methane"], .ok ()⟩ rfl (by norm_num [abs_le])
     rfl rfl rfl).1,
   (composition_key_overwrite sampleActiveState ((3 : ℚ)/10) ((7 : ℚ)/10)
     ⟨.ok (), .ok ["Methane"], .ok ()⟩ rfl (by norm_num [abs_le])
     rfl rfl rfl).2⟩

/-- C10: the composition argument is accepted as a mapping or as a string;
a string starting (after strip) with an opening brace goes through the JSON
parser, any other string through the comma-separated key=value parser whose
keys are stripped and whose values are parsed as floats; a string that
parses to a mapping makes the tool behave exactly as that mapping, so the
normalization precedes the sum validation. -/
theorem composition_string_normalization :
    (∀ m : List (String × ℚ), normalizeComposition (.dict m) = some m) ∧
    (∀ str : String, (((stripChars str.data).headD ' ') == lbrace) = true →
        normalizeComposition (.str str) = jsonParse str) ∧
    (∀ str : String, (((stripChars str.data).headD ' ') == lbrace) = false →
        normalizeComposition (.str str) = keyValueParse str) ∧
    (keyValueParse "Methane=0.70, Ethane=0.30" =
      some [("Methane", 1 * (((0 : ℕ) : ℚ) + ((70 : ℕ) : ℚ) / (10 : ℚ) ^ 2)),
            ("Ethane",
              1 * (((0 : ℕ) : ℚ) + ((30 : ℕ) : ℚ) / (10 : ℚ) ^ 2))]) ∧
    (∀ (s : ProMaxState) (stream str : String) (m : List (String × ℚ))
        (o : SetCompOracle),
        normalizeComposition (.str str) = some m →
        set_stream_composition_tool s stream (.str str) o =
          set_stream_composition_tool s stream (.dict m) o) := by
  refine ⟨fun m => rfl, ?_, ?_, ?_, ?_⟩
  · intro str h
    simp only [normalizeComposition]
    rw [if_pos h]
  · intro str h
    simp only [normalizeComposition]
    rw [if_neg (by rw [h]; simp)]
  · rfl
  · intro s stream str m o hn
    have hd : normalizeComposition (.dict m) = some m := rfl
    simp only [set_stream_composition_tool, hn, hd]

/-- Witness for C10: a key=value string and the mapping it parses to give
identical tool behavior. -/
theorem composition_string_normalization_witness :
    normalizeComposition (.str "Methane=0.5,Ethane=0.5") =
      some [("Methane", 1 * (((0 : ℕ) : ℚ) + ((5 : ℕ) : ℚ) / (10 : ℚ) ^ 1)),
            ("Ethane",
              1 * (((0 : ℕ) : ℚ) + ((5 : ℕ) : ℚ) / (10 : ℚ) ^ 1))] ∧
    set_stream_composition_tool sampleActiveState "S1"
        (.str "Methane=0.5,Ethane=0.5")
        ⟨.ok (), .ok ["Methane", "Ethane"], .ok ()⟩ =
      set_stream_composition_tool sampleActiveState "S1"
        (.dict [("Methane",
            1 * (((0 : ℕ) : ℚ) + ((5 : ℕ) : ℚ) / (10 : ℚ) ^ 1)),
          ("Ethane", 1 * (((0 : ℕ) : ℚ) + ((5 : ℕ) : ℚ) / (10 : ℚ) ^ 1))])
        ⟨.ok (), .ok ["Methane", "Ethane"], .ok ()⟩ :=
  ⟨rfl, composition_string_normalization.2.2.2.2 sampleActiveState "S1"
    "Methane=0.5,Ethane=0.5" _ ⟨.ok (), .ok ["Methane", "Ethane"], .ok ()⟩
    rfl⟩
